import Mathlib

/-!
Verification of the amortization core of `src/mortgage_app.py`.

The engine is modelled in exact rational arithmetic (`ℚ`): every operation the
Python code performs on its scalar inputs (`+`, `-`, `*`, `/`, `**`, `max`) is
mirrored on `ℚ`. This is the exact-arithmetic (unclamped) model the testable
properties of the spec quantify over; Python float rounding is outside it.
The DataFrame built on lines 93-99 of the source packs five parallel lists,
one entry per loop iteration; it is modelled as a list of `PaymentPeriod`
records, one record per row, fields in column order.
-/

/-- Source line 56 (and 71): `monthly_rate = annual_rate / 100 / 12`. -/
def monthly_rate (annual_rate : ℚ) : ℚ :=
  annual_rate / 100 / 12

/-- Source line 57 (and 72): `num_payments = years * 12`. -/
def num_payments (years : ℕ) : ℕ :=
  years * 12

/-- Source lines 54-65: `calculate_monthly_payment(principal, annual_rate, years)`.
Zero-rate branch divides `principal` by `num_payments`; otherwise the annuity
formula `principal * (monthly_rate * (1+monthly_rate)**num_payments) /
((1+monthly_rate)**num_payments - 1)`. -/
def calculate_monthly_payment (principal annual_rate : ℚ) (years : ℕ) : ℚ :=
  if monthly_rate annual_rate = 0 then
    principal / (num_payments years : ℚ)
  else
    principal * (monthly_rate annual_rate * (1 + monthly_rate annual_rate) ^ num_payments years) /
      ((1 + monthly_rate annual_rate) ^ num_payments years - 1)

/-- One row of the schedule DataFrame (source lines 93-99): columns
`Payment_Number`, `Payment_Amount`, `Principal_Payment`, `Interest_Payment`,
`Remaining_Balance`. -/
structure PaymentPeriod where
  paymentNumber : ℕ
  paymentAmount : ℚ
  principalPortion : ℚ
  interestPortion : ℚ
  remainingBalance : ℚ
  deriving Repr, DecidableEq

/-- Source lines 82-91: the loop body of `create_amortization_schedule`.
State is the running (unclamped) `remaining_balance` and the current
`payment_num`; `k` counts the iterations left. Each iteration computes
`interest_payment = remaining_balance * monthly_rate`,
`principal_payment = monthly_payment - interest_payment`,
`remaining_balance = remaining_balance - principal_payment`, and appends a row
whose stored balance is `max(0, remaining_balance)` while the unclamped
`remaining_balance` is what the recursive call carries forward. -/
def scheduleLoop (monthly_payment mrate : ℚ) : ℚ → ℕ → ℕ → List PaymentPeriod
  | _, _, 0 => []
  | remaining_balance, payment_num, k + 1 =>
      let interest_payment := remaining_balance * mrate
      let principal_payment := monthly_payment - interest_payment
      let new_balance := remaining_balance - principal_payment
      ⟨payment_num, monthly_payment, principal_payment, interest_payment,
        max 0 new_balance⟩ ::
        scheduleLoop monthly_payment mrate new_balance (payment_num + 1) k

/-- Source lines 68-101: `create_amortization_schedule(principal, annual_rate, years)`.
Computes the fixed payment once, initializes `remaining_balance = principal`
(line 80), and runs the loop for `payment_num in range(1, num_payments + 1)`. -/
def create_amortization_schedule (principal annual_rate : ℚ) (years : ℕ) :
    List PaymentPeriod :=
  scheduleLoop (calculate_monthly_payment principal annual_rate years)
    (monthly_rate annual_rate) principal 1 (num_payments years)

/-- Source line 113: `total_payments = monthly_payment * loan_years * 12`. -/
def total_payments (principal annual_rate : ℚ) (years : ℕ) : ℚ :=
  calculate_monthly_payment principal annual_rate years * (years : ℚ) * 12

/-- Source line 114: `total_interest = total_payments - loan_principal`. -/
def total_interest (principal annual_rate : ℚ) (years : ℕ) : ℚ :=
  total_payments principal annual_rate years - principal

/-- One unclamped balance update, exactly the loop's lines 83-85:
`b - (monthly_payment - b * mrate)`. -/
def balanceStep (monthly_payment mrate b : ℚ) : ℚ :=
  b - (monthly_payment - b * mrate)

/-- The unclamped running balance after `n` iterations of the loop, starting
from `principal` (source line 80). This is the iteration state of the loop;
it is never clamped. -/
def runningBalance (monthly_payment mrate principal : ℚ) : ℕ → ℚ
  | 0 => principal
  | n + 1 => balanceStep monthly_payment mrate (runningBalance monthly_payment mrate principal n)

/-- The unclamped running balance of `create_amortization_schedule` after `n`
payments. -/
def schedBalance (principal annual_rate : ℚ) (years : ℕ) (n : ℕ) : ℚ :=
  runningBalance (calculate_monthly_payment principal annual_rate years)
    (monthly_rate annual_rate) principal n

/-- Python runtime errors the arithmetic of the source can raise. -/
inductive PyError where
  | zeroDivisionError
  deriving Repr, DecidableEq

/-- Python division: raises `ZeroDivisionError` on a zero divisor, otherwise
exact quotient. -/
def pyDiv (a b : ℚ) : Except PyError ℚ :=
  if b = 0 then Except.error PyError.zeroDivisionError else Except.ok (a / b)

/-- Source lines 54-65 with Python's runtime error behavior made explicit and
`years` an arbitrary integer, for out-of-domain calls: every `/` is `pyDiv`,
`num_payments = years * 12` may be zero or negative, and `**` is integer
exponentiation on `ℚ`. -/
def calculate_monthly_payment_py (principal annual_rate : ℚ) (years : ℤ) :
    Except PyError ℚ := do
  let r1 ← pyDiv annual_rate 100
  let mrate ← pyDiv r1 12
  let numPayments : ℤ := years * 12
  if mrate = 0 then
    pyDiv principal (numPayments : ℚ)
  else
    pyDiv (principal * (mrate * (1 + mrate) ^ numPayments))
      ((1 + mrate) ^ numPayments - 1)

/-! Helper lemmas about the loop and the running balance. -/

theorem monthly_rate_zero : monthly_rate 0 = 0 := by
  simp [monthly_rate]

theorem monthly_rate_pos (rate : ℚ) (h : 0 < rate) : 0 < monthly_rate rate :=
  div_pos (div_pos h (by norm_num)) (by norm_num)

theorem num_payments_pos (y : ℕ) (hy : 1 ≤ y) : 0 < num_payments y := by
  unfold num_payments; omega

theorem scheduleLoop_succ (M mr b : ℚ) (s k : ℕ) :
    scheduleLoop M mr b s (k + 1) =
      ⟨s, M, M - b * mr, b * mr, max 0 (balanceStep M mr b)⟩ ::
        scheduleLoop M mr (balanceStep M mr b) (s + 1) k := rfl

theorem scheduleLoop_length (M mr : ℚ) :
    ∀ (k : ℕ) (b : ℚ) (s : ℕ), (scheduleLoop M mr b s k).length = k := by
  intro k
  induction k with
  | zero => intro b s; simp [scheduleLoop]
  | succ k ih => intro b s; rw [scheduleLoop_succ]; simp [ih]

theorem create_amortization_schedule_length (p rate : ℚ) (y : ℕ) :
    (create_amortization_schedule p rate y).length = num_payments y := by
  unfold create_amortization_schedule
  rw [scheduleLoop_length]

theorem runningBalance_balanceStep (M mr b : ℚ) :
    ∀ n, runningBalance M mr (balanceStep M mr b) n = runningBalance M mr b (n + 1) := by
  intro n
  induction n with
  | zero => rfl
  | succ n ih => simp only [runningBalance, ih]

theorem scheduleLoop_getElem? (M mr : ℚ) :
    ∀ (k : ℕ) (b : ℚ) (s i : ℕ), i < k →
      (scheduleLoop M mr b s k)[i]? = some
        ⟨s + i, M, M - runningBalance M mr b i * mr, runningBalance M mr b i * mr,
          max 0 (runningBalance M mr b (i + 1))⟩ := by
  intro k
  induction k with
  | zero => intro b s i h; omega
  | succ k ih =>
      intro b s i h
      match i with
      | 0 =>
          rw [scheduleLoop_succ]
          simp [runningBalance]
      | Nat.succ j =>
          have hj : j < k := by omega
          rw [scheduleLoop_succ, List.getElem?_cons_succ,
            ih (balanceStep M mr b) (s + 1) j hj, runningBalance_balanceStep,
            runningBalance_balanceStep]
          have hs : s + 1 + j = s + (j + 1) := by omega
          rw [hs]

theorem scheduleLoop_sum_principal (M mr : ℚ) :
    ∀ (k : ℕ) (b : ℚ) (s : ℕ),
      ((scheduleLoop M mr b s k).map PaymentPeriod.principalPortion).sum =
        b - runningBalance M mr b k := by
  intro k
  induction k with
  | zero => intro b s; simp [scheduleLoop, runningBalance]
  | succ k ih =>
      intro b s
      rw [scheduleLoop_succ]
      simp only [List.map_cons, List.sum_cons, ih, runningBalance_balanceStep]
      simp only [balanceStep]
      ring

theorem scheduleLoop_sum_payment (M mr : ℚ) :
    ∀ (k : ℕ) (b : ℚ) (s : ℕ),
      ((scheduleLoop M mr b s k).map PaymentPeriod.paymentAmount).sum = (k : ℚ) * M := by
  intro k
  induction k with
  | zero => intro b s; simp [scheduleLoop]
  | succ k ih =>
      intro b s
      rw [scheduleLoop_succ]
      simp only [List.map_cons, List.sum_cons, ih]
      push_cast
      ring

theorem runningBalance_closed (M mr b : ℚ) (h : mr ≠ 0) :
    ∀ n, runningBalance M mr b n =
      b * (1 + mr) ^ n - M * ((1 + mr) ^ n - 1) / mr := by
  intro n
  induction n with
  | zero => simp [runningBalance]
  | succ n ih =>
      simp only [runningBalance, balanceStep, ih]
      field_simp
      ring

theorem runningBalance_zero_rate (M b : ℚ) :
    ∀ n, runningBalance M 0 b n = b - n * M := by
  intro n
  induction n with
  | zero => simp [runningBalance]
  | succ n ih =>
      simp only [runningBalance, balanceStep, ih]
      push_cast
      ring

theorem schedBalance_succ (p rate : ℚ) (y n : ℕ) :
    schedBalance p rate y (n + 1) =
      schedBalance p rate y n -
        (calculate_monthly_payment p rate y - schedBalance p rate y n * monthly_rate rate) := rfl

theorem one_lt_annuity_base_pow (rate : ℚ) (y : ℕ) (hr : 0 < rate) (hy : 1 ≤ y) :
    1 < (1 + monthly_rate rate) ^ num_payments y := by
  have h1 : 1 < 1 + monthly_rate rate := by linarith [monthly_rate_pos rate hr]
  have h2 : num_payments y ≠ 0 := by unfold num_payments; omega
  exact one_lt_pow₀ h1 h2

theorem schedBalance_closed (p rate : ℚ) (y : ℕ) (hr : 0 < rate) (hy : 1 ≤ y) (n : ℕ) :
    schedBalance p rate y n =
      p * ((1 + monthly_rate rate) ^ num_payments y - (1 + monthly_rate rate) ^ n) /
        ((1 + monthly_rate rate) ^ num_payments y - 1) := by
  have hmr : monthly_rate rate ≠ 0 := ne_of_gt (monthly_rate_pos rate hr)
  have hq : (1 + monthly_rate rate) ^ num_payments y - 1 ≠ 0 :=
    sub_ne_zero.mpr (ne_of_gt (one_lt_annuity_base_pow rate y hr hy))
  unfold schedBalance
  rw [runningBalance_closed _ _ _ hmr]
  rw [calculate_monthly_payment, if_neg hmr]
  field_simp
  ring

theorem schedBalance_zero_rate (p : ℚ) (y : ℕ) (n : ℕ) :
    schedBalance p 0 y n = p - n * (p / (num_payments y : ℚ)) := by
  unfold schedBalance
  rw [monthly_rate_zero, runningBalance_zero_rate, calculate_monthly_payment,
    if_pos monthly_rate_zero]

theorem schedBalance_final (p rate : ℚ) (y : ℕ) (hr : 0 ≤ rate) (hy : 1 ≤ y) :
    schedBalance p rate y (num_payments y) = 0 := by
  rcases eq_or_lt_of_le hr with h | h
  · rw [← h, schedBalance_zero_rate]
    have hN : ((num_payments y : ℚ)) ≠ 0 :=
      Nat.cast_ne_zero.mpr (Nat.pos_iff_ne_zero.mp (num_payments_pos y hy))
    field_simp
  · rw [schedBalance_closed p rate y h hy]
    simp

theorem payment_exceeds_interest (p rate : ℚ) (y : ℕ) (hp : 0 < p) (hr : 0 ≤ rate)
    (hy : 1 ≤ y) (n : ℕ) :
    0 < calculate_monthly_payment p rate y - schedBalance p rate y n * monthly_rate rate := by
  rcases eq_or_lt_of_le hr with h | h
  · rw [← h, monthly_rate_zero, mul_zero, sub_zero, calculate_monthly_payment,
      if_pos monthly_rate_zero]
    have hN : (0 : ℚ) < (num_payments y : ℚ) :=
      Nat.cast_pos.mpr (num_payments_pos y hy)
    exact div_pos hp hN
  · have hmr := monthly_rate_pos rate h
    have hq := one_lt_annuity_base_pow rate y h hy
    have hq1 : (0 : ℚ) < (1 + monthly_rate rate) ^ num_payments y - 1 := by linarith
    have hc : (0 : ℚ) < 1 + monthly_rate rate := by linarith
    have key : calculate_monthly_payment p rate y - schedBalance p rate y n * monthly_rate rate
        = p * monthly_rate rate * (1 + monthly_rate rate) ^ n /
          ((1 + monthly_rate rate) ^ num_payments y - 1) := by
      rw [schedBalance_closed p rate y h hy, calculate_monthly_payment, if_neg (ne_of_gt hmr)]
      field_simp
      ring
    rw [key]
    exact div_pos (mul_pos (mul_pos hp hmr) (pow_pos hc n)) hq1

theorem schedBalance_strict_anti (p rate : ℚ) (y : ℕ) (hp : 0 < p) (hr : 0 ≤ rate)
    (hy : 1 ≤ y) (n : ℕ) :
    schedBalance p rate y (n + 1) < schedBalance p rate y n := by
  rw [schedBalance_succ]
  exact sub_lt_self _ (payment_exceeds_interest p rate y hp hr hy n)

theorem schedBalance_nonneg (p rate : ℚ) (y : ℕ) (hp : 0 < p) (hr : 0 ≤ rate)
    (hy : 1 ≤ y) (n : ℕ) (hn : n ≤ num_payments y) :
    0 ≤ schedBalance p rate y n := by
  rcases eq_or_lt_of_le hr with h | h
  · rw [← h, schedBalance_zero_rate]
    have hN : (0 : ℚ) < (num_payments y : ℚ) :=
      Nat.cast_pos.mpr (num_payments_pos y hy)
    have hle : (n : ℚ) ≤ (num_payments y : ℚ) := by exact_mod_cast hn
    have h1 : (n : ℚ) * (p / (num_payments y : ℚ)) ≤
        (num_payments y : ℚ) * (p / (num_payments y : ℚ)) :=
      mul_le_mul_of_nonneg_right hle (div_nonneg hp.le hN.le)
    have h2 : (num_payments y : ℚ) * (p / (num_payments y : ℚ)) = p := by
      field_simp
    linarith
  · rw [schedBalance_closed p rate y h hy]
    have hmr := monthly_rate_pos rate h
    have hq := one_lt_annuity_base_pow rate y h hy
    have hc : (1 : ℚ) ≤ 1 + monthly_rate rate := by linarith
    have hpow : (1 + monthly_rate rate) ^ n ≤ (1 + monthly_rate rate) ^ num_payments y :=
      pow_le_pow_right₀ hc hn
    exact div_nonneg (mul_nonneg hp.le (sub_nonneg.mpr hpow)) (by linarith)

theorem create_amortization_schedule_get (p rate : ℚ) (y i : ℕ)
    (h : i < (create_amortization_schedule p rate y).length) :
    (create_amortization_schedule p rate y).get ⟨i, h⟩ =
      ⟨1 + i, calculate_monthly_payment p rate y,
        calculate_monthly_payment p rate y - schedBalance p rate y i * monthly_rate rate,
        schedBalance p rate y i * monthly_rate rate,
        max 0 (schedBalance p rate y (i + 1))⟩ := by
  have hk : i < num_payments y := by
    rwa [create_amortization_schedule_length] at h
  have h1 := scheduleLoop_getElem? (calculate_monthly_payment p rate y) (monthly_rate rate)
    (num_payments y) p 1 i hk
  have h2 : (create_amortization_schedule p rate y)[i]? =
      some ((create_amortization_schedule p rate y).get ⟨i, h⟩) := by
    rw [List.get_eq_getElem]
    exact List.getElem?_eq_getElem h
  unfold create_amortization_schedule at h2
  rw [h1] at h2
  injection h2 with h3
  exact h3.symm

/-! Claim theorems. -/

/-- C1: for every valid input the schedule fully amortizes. In the exact
rational model the principal portions over all periods sum to exactly the
principal (so any cumulative tolerance such as 1e-2 currency units is met),
and the last period's clamped remaining balance is exactly 0. -/
theorem C1_full_amortization (p rate : ℚ) (y : ℕ)
    (hp : 0 < p) (hr : 0 ≤ rate) (hy : 1 ≤ y) :
    ((create_amortization_schedule p rate y).map PaymentPeriod.principalPortion).sum = p ∧
    ((create_amortization_schedule p rate y).getLast?).map PaymentPeriod.remainingBalance =
      some 0 := by
  constructor
  · unfold create_amortization_schedule
    rw [scheduleLoop_sum_principal]
    have hfin := schedBalance_final p rate y hr hy
    unfold schedBalance at hfin
    rw [hfin, sub_zero]
  · have hlen := create_amortization_schedule_length p rate y
    have hNpos := num_payments_pos y hy
    rw [List.getLast?_eq_getElem?, hlen]
    have hidx : num_payments y - 1 < num_payments y := by omega
    have h1 := scheduleLoop_getElem? (calculate_monthly_payment p rate y) (monthly_rate rate)
      (num_payments y) p 1 (num_payments y - 1) hidx
    have hsucc : num_payments y - 1 + 1 = num_payments y := by omega
    rw [hsucc] at h1
    unfold create_amortization_schedule
    rw [h1]
    have hfin := schedBalance_final p rate y hr hy
    unfold schedBalance at hfin
    simp [hfin]

/-- C1 witness: the theorem applied to principal 1000, rate 0, term 1 year. -/
theorem C1_full_amortization_witness :
    ((create_amortization_schedule 1000 0 1).map PaymentPeriod.principalPortion).sum = 1000 ∧
    ((create_amortization_schedule 1000 0 1).getLast?).map PaymentPeriod.remainingBalance =
      some 0 :=
  C1_full_amortization 1000 0 1 (by norm_num) (le_refl 0) (le_refl 1)

/-- C2: the loop's iteration state is the unclamped balance `schedBalance`,
with `schedBalance 0 = principal` and
`schedBalance (n+1) = schedBalance n - principalPortion(n+1)`; each period's
interest is computed from that unclamped state, and only the value stored in
the record is clamped with `max 0`; the clamp never feeds back into any
subsequent period. -/
theorem C2_unclamped_iteration (p rate : ℚ) (y i : ℕ)
    (h : i < (create_amortization_schedule p rate y).length) :
    schedBalance p rate y 0 = p ∧
    ((create_amortization_schedule p rate y).get ⟨i, h⟩).interestPortion =
      schedBalance p rate y i * monthly_rate rate ∧
    ((create_amortization_schedule p rate y).get ⟨i, h⟩).principalPortion =
      calculate_monthly_payment p rate y - schedBalance p rate y i * monthly_rate rate ∧
    schedBalance p rate y (i + 1) =
      schedBalance p rate y i -
        ((create_amortization_schedule p rate y).get ⟨i, h⟩).principalPortion ∧
    ((create_amortization_schedule p rate y).get ⟨i, h⟩).remainingBalance =
      max 0 (schedBalance p rate y (i + 1)) := by
  rw [create_amortization_schedule_get p rate y i h]
  refine ⟨rfl, rfl, rfl, ?_, rfl⟩
  rw [schedBalance_succ]

/-- C2 witness: the theorem applied to principal 1000, rate 12, term 1 year,
period index 0. -/
theorem C2_unclamped_iteration_witness :
    schedBalance 1000 12 1 0 = 1000 ∧
    ((create_amortization_schedule 1000 12 1).get
        ⟨0, by rw [create_amortization_schedule_length]; exact num_payments_pos 1 (le_refl 1)⟩
      ).interestPortion = schedBalance 1000 12 1 0 * monthly_rate 12 :=
  ⟨(C2_unclamped_iteration 1000 12 1 0
      (by rw [create_amortization_schedule_length]; exact num_payments_pos 1 (le_refl 1))).1,
    (C2_unclamped_iteration 1000 12 1 0
      (by rw [create_amortization_schedule_length]; exact num_payments_pos 1 (le_refl 1))).2.1⟩

/-- C3: the payment is `principal / (termYears*12)` when
`annualRatePercent/100/12` is exactly zero, and otherwise
`principal * (monthlyRate * (1+monthlyRate)^numPayments) /
((1+monthlyRate)^numPayments - 1)` with `monthlyRate = annualRatePercent/100/12`
and `numPayments = termYears*12`. -/
theorem C3_payment_formula (p rate : ℚ) (y : ℕ)
    (hp : 0 < p) (hr : 0 ≤ rate) (hy : 1 ≤ y) :
    (rate / 100 / 12 = 0 →
      calculate_monthly_payment p rate y = p / ((y * 12 : ℕ) : ℚ)) ∧
    (rate / 100 / 12 ≠ 0 →
      calculate_monthly_payment p rate y =
        p * ((rate / 100 / 12) * (1 + rate / 100 / 12) ^ (y * 12)) /
          ((1 + rate / 100 / 12) ^ (y * 12) - 1)) := by
  constructor
  · intro h0
    rw [calculate_monthly_payment, if_pos (show monthly_rate rate = 0 from h0)]
    rfl
  · intro h0
    rw [calculate_monthly_payment, if_neg (show ¬monthly_rate rate = 0 from h0)]
    rfl

/-- C3 witness: the zero-rate branch at principal 1000, rate 0, term 1 year. -/
theorem C3_payment_formula_witness :
    calculate_monthly_payment 1000 0 1 = 1000 / ((1 * 12 : ℕ) : ℚ) :=
  (C3_payment_formula 1000 0 1 (by norm_num) (le_refl 0) (le_refl 1)).1 (by norm_num)

/-- C5: in the exact model, every period's principal portion plus interest
portion equals exactly the payment amount recorded for that period. -/
theorem C5_payment_split_exact (p rate : ℚ) (y i : ℕ)
    (h : i < (create_amortization_schedule p rate y).length) :
    ((create_amortization_schedule p rate y).get ⟨i, h⟩).principalPortion +
      ((create_amortization_schedule p rate y).get ⟨i, h⟩).interestPortion =
      ((create_amortization_schedule p rate y).get ⟨i, h⟩).paymentAmount := by
  rw [create_amortization_schedule_get p rate y i h]
  show calculate_monthly_payment p rate y - schedBalance p rate y i * monthly_rate rate +
      schedBalance p rate y i * monthly_rate rate = calculate_monthly_payment p rate y
  ring

/-- C5 witness: the theorem applied to principal 1000, rate 12, term 1 year,
period index 0. -/
theorem C5_payment_split_exact_witness :
    ((create_amortization_schedule 1000 12 1).get
        ⟨0, by rw [create_amortization_schedule_length]; exact num_payments_pos 1 (le_refl 1)⟩
      ).principalPortion +
      ((create_amortization_schedule 1000 12 1).get
        ⟨0, by rw [create_amortization_schedule_length]; exact num_payments_pos 1 (le_refl 1)⟩
      ).interestPortion =
      ((create_amortization_schedule 1000 12 1).get
        ⟨0, by rw [create_amortization_schedule_length]; exact num_payments_pos 1 (le_refl 1)⟩
      ).paymentAmount :=
  C5_payment_split_exact 1000 12 1 0
    (by rw [create_amortization_schedule_length]; exact num_payments_pos 1 (le_refl 1))

/-- C4 counterexample: the code contains no guard. Called out-of-domain with
`termYears = 0` and zero rate, `principal / num_payments` divides by zero and
the call ends in Python's uncaught `ZeroDivisionError`; nothing is reported as
`InvalidInput`. -/
theorem C4_counterexample :
    calculate_monthly_payment_py 1000 0 0 = Except.error PyError.zeroDivisionError := by
  simp [calculate_monthly_payment_py, pyDiv, Bind.bind, Except.bind]

/-- C4 amended: `calculate_monthly_payment` does not guard the zero-rate
division. With zero rate and `termYears = 0` it raises an uncaught
`ZeroDivisionError` (for any principal), and with zero rate and
`termYears = -1` it silently returns the negative payment
`principal / (-12)`; no `InvalidInput` is ever reported. -/
theorem C4_no_guard (p : ℚ) :
    calculate_monthly_payment_py p 0 0 = Except.error PyError.zeroDivisionError ∧
    calculate_monthly_payment_py p 0 (-1) = Except.ok (p / (-12 : ℚ)) := by
  constructor
  · simp [calculate_monthly_payment_py, pyDiv, Bind.bind, Except.bind]
  · simp [calculate_monthly_payment_py, pyDiv, Bind.bind, Except.bind]

/-- C6: with positive principal, non-negative rate and a valid term, the
recorded remaining balances are strictly decreasing from each period to the
next; in the exact model this holds at every adjacent pair, including the
final clamped period. -/
theorem C6_balance_strictly_decreasing (p rate : ℚ) (y : ℕ)
    (hp : 0 < p) (hr : 0 ≤ rate) (hy : 1 ≤ y) (i : ℕ)
    (h : i + 1 < (create_amortization_schedule p rate y).length) :
    ((create_amortization_schedule p rate y).get ⟨i + 1, h⟩).remainingBalance <
      ((create_amortization_schedule p rate y).get
        ⟨i, Nat.lt_of_succ_lt h⟩).remainingBalance := by
  rw [create_amortization_schedule_get p rate y (i + 1) h,
    create_amortization_schedule_get p rate y i (Nat.lt_of_succ_lt h)]
  have hlen := create_amortization_schedule_length p rate y
  have hi2 : i + 1 + 1 ≤ num_payments y := by rw [hlen] at h; omega
  have hb2 : 0 ≤ schedBalance p rate y (i + 1 + 1) :=
    schedBalance_nonneg p rate y hp hr hy (i + 1 + 1) hi2
  have hb1 : 0 ≤ schedBalance p rate y (i + 1) :=
    schedBalance_nonneg p rate y hp hr hy (i + 1) (by omega)
  have hlt : schedBalance p rate y (i + 1 + 1) < schedBalance p rate y (i + 1) :=
    schedBalance_strict_anti p rate y hp hr hy (i + 1)
  show max 0 (schedBalance p rate y (i + 1 + 1)) < max 0 (schedBalance p rate y (i + 1))
  rw [max_eq_right hb2, max_eq_right hb1]
  exact hlt

/-- C6 witness: the theorem applied to principal 1000, rate 12, term 1 year,
adjacent periods 1 and 2. -/
theorem C6_balance_strictly_decreasing_witness :
    ((create_amortization_schedule 1000 12 1).get
        ⟨0 + 1, by rw [create_amortization_schedule_length]; norm_num [num_payments]⟩
      ).remainingBalance <
      ((create_amortization_schedule 1000 12 1).get
        ⟨0, Nat.lt_of_succ_lt
          (by rw [create_amortization_schedule_length]; norm_num [num_payments])⟩
      ).remainingBalance :=
  C6_balance_strictly_decreasing 1000 12 1 (by norm_num) (by norm_num) (le_refl 1) 0
    (by rw [create_amortization_schedule_length]; norm_num [num_payments])

/-- C7: the schedule has exactly `termYears * 12` records, and the i-th record
(0-based) has payment number `i + 1`: 1-indexed, unique and strictly
ascending. -/
theorem C7_length_and_numbering (p rate : ℚ) (y : ℕ) :
    (create_amortization_schedule p rate y).length = y * 12 ∧
    ∀ (i : ℕ) (h : i < (create_amortization_schedule p rate y).length),
      ((create_amortization_schedule p rate y).get ⟨i, h⟩).paymentNumber = i + 1 := by
  constructor
  · rw [create_amortization_schedule_length]
    rfl
  · intro i h
    rw [create_amortization_schedule_get p rate y i h]
    show 1 + i = i + 1
    omega

/-- C7 witness: the conjuncts applied to principal 1000, rate 12, term 1 year,
record index 0. -/
theorem C7_length_and_numbering_witness :
    (create_amortization_schedule 1000 12 1).length = 1 * 12 ∧
    ((create_amortization_schedule 1000 12 1).get
        ⟨0, by rw [create_amortization_schedule_length]; norm_num [num_payments]⟩
      ).paymentNumber = 0 + 1 :=
  ⟨(C7_length_and_numbering 1000 12 1).1,
    (C7_length_and_numbering 1000 12 1).2 0
      (by rw [create_amortization_schedule_length]; norm_num [num_payments])⟩

/-- C8: with zero annual rate and otherwise valid inputs, every period has
zero interest portion and principal portion exactly
`principal / num_payments`, constant across periods. -/
theorem C8_zero_rate_schedule (p : ℚ) (y : ℕ) (hp : 0 < p) (hy : 1 ≤ y) (i : ℕ)
    (h : i < (create_amortization_schedule p 0 y).length) :
    ((create_amortization_schedule p 0 y).get ⟨i, h⟩).interestPortion = 0 ∧
    ((create_amortization_schedule p 0 y).get ⟨i, h⟩).principalPortion =
      p / (num_payments y : ℚ) := by
  rw [create_amortization_schedule_get p 0 y i h]
  constructor
  · show schedBalance p 0 y i * monthly_rate 0 = 0
    rw [monthly_rate_zero, mul_zero]
  · show calculate_monthly_payment p 0 y - schedBalance p 0 y i * monthly_rate 0 =
      p / (num_payments y : ℚ)
    rw [monthly_rate_zero, mul_zero, sub_zero, calculate_monthly_payment,
      if_pos monthly_rate_zero]

/-- C8 witness: the theorem applied to principal 1000, rate 0, term 1 year,
period index 0. -/
theorem C8_zero_rate_schedule_witness :
    ((create_amortization_schedule 1000 0 1).get
        ⟨0, by rw [create_amortization_schedule_length]; norm_num [num_payments]⟩
      ).interestPortion = 0 ∧
    ((create_amortization_schedule 1000 0 1).get
        ⟨0, by rw [create_amortization_schedule_length]; norm_num [num_payments]⟩
      ).principalPortion = 1000 / (num_payments 1 : ℚ) :=
  C8_zero_rate_schedule 1000 1 (by norm_num) (le_refl 1) 0
    (by rw [create_amortization_schedule_length]; norm_num [num_payments])

/-- C9: `total_payments` equals the sum of the payment amounts over all
periods of the schedule (both are monthly payment times number of periods),
and `total_interest` is `total_payments` minus the principal. -/
theorem C9_summary_totals (p rate : ℚ) (y : ℕ) :
    total_payments p rate y =
      ((create_amortization_schedule p rate y).map PaymentPeriod.paymentAmount).sum ∧
    total_interest p rate y = total_payments p rate y - p := by
  constructor
  · unfold create_amortization_schedule
    rw [scheduleLoop_sum_payment]
    unfold total_payments num_payments
    push_cast
    ring
  · rfl

/-- C10: with positive rate and a valid term the annuity denominator
`(1+monthlyRate)^numPayments - 1` is strictly positive, so the non-zero-rate
branch never divides by zero, and the payment is strictly positive for
positive principal. -/
theorem C10_denominator_positive (p rate : ℚ) (y : ℕ)
    (hp : 0 < p) (hr : 0 < rate) (hy : 1 ≤ y) :
    0 < (1 + monthly_rate rate) ^ num_payments y - 1 ∧
    0 < calculate_monthly_payment p rate y := by
  have hq := one_lt_annuity_base_pow rate y hr hy
  have hmr := monthly_rate_pos rate hr
  refine ⟨by linarith, ?_⟩
  rw [calculate_monthly_payment, if_neg (ne_of_gt hmr)]
  have hc : (0 : ℚ) < 1 + monthly_rate rate := by linarith
  exact div_pos (mul_pos hp (mul_pos hmr (pow_pos hc _))) (by linarith)

/-- C10 witness: the theorem applied to principal 1000, rate 12, term 1
year. -/
theorem C10_denominator_positive_witness :
    0 < (1 + monthly_rate 12) ^ num_payments 1 - 1 ∧
    0 < calculate_monthly_payment 1000 12 1 :=
  C10_denominator_positive 1000 12 1 (by norm_num) (by norm_num) (le_refl 1)
